import Mathlib

/-
  Verification development for the streamer-notification bot.

  Shallow embedding of the change-detection / deduplication core:
  * utils/database.js        : checkNotificationStatus, markAsSent, updateVideoStatus
  * handlers/NotificationHandler.js : shouldNotify, markAsSent (doc-id derivation)
  * main.js                  : checkStreamerContent / checkForNewContent cycle
  * services/RssService.js   : feed classification, sorting, dispatch, cursor update
  * services/FeedFormatter.js: safeCompareDate
  * scheduler reentrancy     : RssService.isProcessing flag vs unguarded content cycle
-/

namespace Shikeo

/-- Video lifecycle status as used by `getVideoStatus` ('upcoming', 'live', 'video'). -/
inductive VStatus
  | upcoming
  | live
  | video
deriving DecidableEq, Fintype

/-- Notification kind ('initial' or 'status_change'). -/
inductive NotifType
  | initial
  | status_change
deriving DecidableEq

/-- Result object of `Database.checkNotificationStatus`. -/
structure NotifCheck where
  shouldNotify : Bool
  statusChanged : Bool
  previousStatus : Option VStatus
  notificationType : NotifType
deriving DecidableEq

/-- Document written by `Database.markAsSent` into `sent_notifications`. -/
structure MarkerData where
  contentId : String
  docId : String
  streamerName : String
  platform : String
  status : VStatus
  notificationType : NotifType
deriving DecidableEq

/-- The Firestore collections consulted by the notification flow:
`sent_notifications` (keyed by doc id) and `video_status` (keyed by content id,
only the `status` field is ever read back by `checkNotificationStatus`). -/
structure Store where
  sentNotifications : List (String × MarkerData)
  videoStatus : List (String × VStatus)
deriving DecidableEq

/-- Firestore `doc(k).get()`: first binding for key `k`. -/
def getDoc : List (String × α) → String → Option α
  | [], _ => none
  | (k', v) :: rest, k => if k = k' then some v else getDoc rest k

/-- Firestore `doc(k).set(v)` (full overwrite): replace any binding for `k` by `v`. -/
def setDoc (l : List (String × α)) (k : String) (v : α) : List (String × α) :=
  (k, v) :: l.filter (fun p => !(p.1 == k))

/-- Number of bindings for key `k` (there is at most one marker document per key). -/
def countKey (l : List (String × α)) (k : String) : Nat :=
  (l.filter (fun p => p.1 == k)).length

/-! ## Database.checkNotificationStatus (utils/database.js lines 58-108) -/

/-- Core decision logic of `checkNotificationStatus`, over the values read from the
store: prior stored status (`null` or a status), existence of the initial sent
marker, existence of the status-change sent marker, and the current status. -/
def checkCore (prev : Option VStatus) (initialExists scExists : Bool)
    (cur : VStatus) : NotifCheck :=
  let statusChanged : Bool :=
    match prev with
    | none => false
    | some p => p != cur
  if initialExists = false then
    { shouldNotify := true, statusChanged := statusChanged,
      previousStatus := prev, notificationType := .initial }
  else if statusChanged && (prev == some VStatus.upcoming) && (cur == VStatus.live) then
    if scExists = false then
      { shouldNotify := true, statusChanged := statusChanged,
        previousStatus := prev, notificationType := .status_change }
    else
      { shouldNotify := false, statusChanged := statusChanged,
        previousStatus := prev, notificationType := .initial }
  else
    { shouldNotify := false, statusChanged := statusChanged,
      previousStatus := prev, notificationType := .initial }

/-- Doc id of the status-change marker: `` `${contentId}_live_status_change` ``. -/
def scDocId (contentId : String) : String :=
  contentId ++ "_live_status_change"

/-- `Database.checkNotificationStatus(contentId, currentStatus)` reading from a store. -/
def checkNotificationStatus (st : Store) (contentId : String) (cur : VStatus) : NotifCheck :=
  let prev := getDoc st.videoStatus contentId
  let initialExists := (getDoc st.sentNotifications contentId).isSome
  let scExists := (getDoc st.sentNotifications (scDocId contentId)).isSome
  checkCore prev initialExists scExists cur

/-- The object returned by the `catch` branch of `checkNotificationStatus`. -/
def errorResult : NotifCheck :=
  { shouldNotify := false, statusChanged := false,
    previousStatus := none, notificationType := .initial }

/-- `checkNotificationStatus` with fallible store reads: the three awaited reads
(video status doc, initial marker doc, status-change marker doc) may each throw;
any throw is caught and the conservative default object is returned. -/
def checkNotificationStatusE (statusRead : Except Unit (Option VStatus))
    (initialRead scRead : Except Unit Bool) (cur : VStatus) : NotifCheck :=
  match statusRead, initialRead, scRead with
  | .ok prev, .ok initialExists, .ok scExists => checkCore prev initialExists scExists cur
  | _, _, _ => errorResult

/-! ## Database.markAsSent (utils/database.js lines 167-188) and the handler wrapper -/

/-- `docId.includes('_') ? docId.split('_')[0] : docId` — the contentId recorded
in the marker document. -/
def markerContentId (docId : String) : String :=
  if docId.data.contains '_' then
    String.mk (docId.data.takeWhile (fun c => !(c == '_')))
  else docId

/-- `Database.markAsSent(docId, ...)`: unconditional `sentNotifications.doc(docId).set({...})`. -/
def markAsSent (st : Store) (docId streamerName platform : String)
    (status : VStatus) (ntype : NotifType) : Store :=
  { st with
    sentNotifications := setDoc st.sentNotifications docId
      { contentId := markerContentId docId, docId := docId,
        streamerName := streamerName, platform := platform,
        status := status, notificationType := ntype } }

/-- `NotificationHandler.markAsSent`: derives the doc id from the notification type
(`contentId` for initial, `` `${contentId}_live_status_change` `` for status_change)
and delegates to `Database.markAsSent`. -/
def handlerMarkAsSent (st : Store) (contentId streamerName platform : String)
    (status : VStatus) (ntype : NotifType) : Store :=
  let docId := if ntype == NotifType.status_change then scDocId contentId else contentId
  markAsSent st docId streamerName platform status ntype

/-- `Database.updateVideoStatus`: merge-write of the current status into `video_status`. -/
def updateVideoStatus (st : Store) (contentId : String) (status : VStatus) : Store :=
  { st with videoStatus := setDoc st.videoStatus contentId status }

/-- `NotificationHandler.shouldNotify`: runs `checkNotificationStatus`, then
upserts the observed status into `video_status`, and returns the check result. -/
def shouldNotifyH (st : Store) (contentId : String) (cur : VStatus) : NotifCheck × Store :=
  let c := checkNotificationStatus st contentId cur
  (c, updateVideoStatus st contentId cur)

/-! ## main.js checkStreamerContent (lines 499-547) -/

/-- Observable operations performed by one streamer-content cycle:
a delivery that returned without raising, and a sent-marker write. -/
inductive Event
  | sent (id : String) (t : NotifType)
  | marked (id : String) (t : NotifType)
deriving DecidableEq

/-- The per-streamer loop of `checkStreamerContent`: for each fetched video,
evaluate `shouldNotify`; if due, `sendNotification` (modelled by the `send`
oracle, `.error` = the awaited send raised) and only then `markAsSent`.
A raised send propagates to the surrounding `catch`, aborting the loop for
this streamer: no marker is written and the remaining videos are skipped. -/
def checkStreamerContent (send : String → Except Unit Unit) :
    Store → List (String × VStatus) → Store × List Event
  | st, [] => (st, [])
  | st, (id, cur) :: rest =>
    let r := shouldNotifyH st id cur
    if r.1.shouldNotify then
      match send id with
      | .ok _ =>
        let st2 := handlerMarkAsSent r.2 id "" "" cur r.1.notificationType
        let res := checkStreamerContent send st2 rest
        (res.1, .sent id r.1.notificationType :: .marked id r.1.notificationType :: res.2)
      | .error _ => (r.2, [])
    else
      checkStreamerContent send r.2 rest

/-! ## FeedFormatter.safeCompareDate (services/RssService.js second file, lines 377-414) -/

/-- A JavaScript value fed to `safeCompareDate`: a string, a `Date` object
(`none` timestamp = Invalid Date), an object with a numeric `_seconds` field
(Firestore timestamp), or a truthy value of any other type. -/
inductive JsDate
  | str (s : String)
  | date (t : Option Int)
  | seconds (n : Int)
  | other
deriving DecidableEq

/-- JS truthiness of a `JsDate` value: only the empty string is falsy here
(Date objects and plain objects are always truthy). -/
def jsFalsy : JsDate → Bool
  | .str s => s == ""
  | _ => false

/-- `new Date(v).getTime()` for each supported shape; `none` models `NaN`.
`parse` is the host's date-string parser (`new Date(string)`). -/
def toJsTime (parse : String → Option Int) : JsDate → Option Int
  | .str s => parse s
  | .date t => t
  | .seconds n => some (n * 1000)
  | .other => none

/-- `safeCompareDate(date1, date2)`: false when either argument is missing/falsy,
of an unsupported type (`toJsTime` = none for `.other`), or yields an invalid
date (`NaN` time); otherwise strict `>` on the two times. -/
def safeCompareDate (parse : String → Option Int) :
    Option JsDate → Option JsDate → Bool
  | some v1, some v2 =>
    if jsFalsy v1 || jsFalsy v2 then false
    else
      match toJsTime parse v1, toJsTime parse v2 with
      | some t1, some t2 => t1 > t2
      | _, _ => false
  | _, _ => false

/-! ## RssService.processRssFeeds (services/RssService.js lines 103-242) -/

/-- A fetched RSS item: the three fields consulted by the differ. `none` or the
empty string are both JS-falsy. -/
structure FeedItem where
  guid : Option String
  pubDate : Option String
  title : Option String
deriving DecidableEq

/-- The persisted per-feed cursor as returned by `RssDatabase.getRssStatus`:
`lastPublishDate` has been normalized by `parseDate` to a valid `Date` or null. -/
structure RssCursor where
  lastItemId : Option String
  lastPublishDate : Option Int
  lastTitle : Option String
deriving DecidableEq

/-- JS truthiness of an optional string field. -/
def truthyStr : Option String → Bool
  | none => false
  | some s => !(s == "")

/-- New-item classification of `processRssFeeds` (lines 137-154): guid equality
first, then `safeCompareDate` on publish dates, then title inequality,
else new (fail open). -/
def isNewItem (parse : String → Option Int) (item : FeedItem) (c : RssCursor) : Bool :=
  if truthyStr item.guid && truthyStr c.lastItemId then
    item.guid != c.lastItemId
  else if truthyStr item.pubDate && c.lastPublishDate.isSome then
    safeCompareDate parse (item.pubDate.map JsDate.str)
      (c.lastPublishDate.map (fun t => JsDate.date (some t)))
  else if truthyStr item.title && truthyStr c.lastTitle then
    item.title != c.lastTitle
  else
    true

/-- Sort key of the comparator (lines 157-171): `a.pubDate ? new Date(a.pubDate).getTime() : 0`;
`none` models `NaN` (present but unparseable date). A falsy pubDate gives `0`. -/
def itemKey (parse : String → Option Int) (item : FeedItem) : Option Int :=
  match item.pubDate with
  | none => some 0
  | some s => if s == "" then some 0 else parse s

/-- The JS comparator: `dateA - dateB`, with `0` when either side is `NaN`. -/
def rssComparator (parse : String → Option Int) (a b : FeedItem) : Int :=
  match itemKey parse a, itemKey parse b with
  | some ta, some tb => ta - tb
  | _, _ => 0

/-- Stable insertion: `x` goes after every element `y` with `c y x ≤ 0`
(equal-comparing elements keep their original relative order, as the stable
`Array.prototype.sort` does). -/
def insertStable (c : α → α → Int) (x : α) : List α → List α
  | [] => [x]
  | y :: ys => if c y x ≤ 0 then y :: insertStable c x ys else x :: y :: ys

/-- Stable sort by a JS comparator. -/
def sortByC (c : α → α → Int) (l : List α) : List α :=
  l.foldl (fun acc x => insertStable c x acc) []

/-- `newItems.sort(comparator)`. -/
def sortItems (parse : String → Option Int) (l : List FeedItem) : List FeedItem :=
  sortByC (rssComparator parse) l

/-- The sorted list of items classified new, in the order they are presented
to the notification sink. -/
def dispatchOrder (parse : String → Option Int) (c : RssCursor)
    (items : List FeedItem) : List FeedItem :=
  sortItems parse (items.filter (fun i => isNewItem parse i c))

/-- The cursor value persisted after a batch (lines 212-224 plus
`RssDatabase.updateRssStatus`): `guid || null`, the parsed publish date or null,
`title || null`. -/
def cursorFromItem (parse : String → Option Int) (item : FeedItem) : RssCursor :=
  { lastItemId := if truthyStr item.guid then item.guid else none,
    lastPublishDate := if truthyStr item.pubDate then item.pubDate.bind parse else none,
    lastTitle := if truthyStr item.title then item.title else none }

/-- One channel delivery attempt per (item, channel); `false` = the send threw.
Every failure is caught inside the channel loop and only logged. -/
def dispatchAll (send : FeedItem → String → Bool) (channels : List String) :
    List FeedItem → List (FeedItem × String × Bool)
  | [] => []
  | i :: rest => (channels.map (fun ch => (i, ch, send i ch))) ++ dispatchAll send channels rest

/-- Result of processing one feed: the delivery attempts performed (in order)
and the cursor written afterwards (`none` = `updateRssStatus` not called). -/
structure FeedResult where
  attempts : List (FeedItem × String × Bool)
  cursorAfter : Option RssCursor
deriving DecidableEq

/-- One iteration of the feed loop of `processRssFeeds`: classify, sort,
dispatch to every channel (failures caught and logged), then — whenever at
least one new item exists — persist the cursor taken from the **last** item of
the sorted new-item list. -/
def processFeed (parse : String → Option Int) (send : FeedItem → String → Bool)
    (channels : List String) (c : RssCursor) (items : List FeedItem) : FeedResult :=
  let newItems := dispatchOrder parse c items
  { attempts := dispatchAll send channels newItems,
    cursorAfter :=
      match newItems.getLast? with
      | none => none
      | some lastItem => some (cursorFromItem parse lastItem) }

/-! ## Scheduler reentrancy (RssService.isProcessing; main.js checkForNewContent) -/

/-- Interleaving state of the two poll loops: the RSS service's `isProcessing`
flag, the number of in-flight RSS cycle bodies, the number of in-flight
content-source cycle bodies (`checkForNewContent`), and the count of logged
reentrancy warnings. -/
structure SchedState where
  isProcessing : Bool
  rssRunning : Nat
  contentRunning : Nat
  warnings : Nat
deriving DecidableEq

/-- Atomic steps of the event loop. An RSS tick checks-and-sets `isProcessing`
in one synchronous segment (lines 104-109); the body's `finally` resets the
flag even when the body threw (lines 239-241). A content tick
(`setInterval`/`cron` firing `checkForNewContent`) has no guard. -/
inductive SchedStep : SchedState → SchedState → Prop
  | rssTickSkip (s : SchedState) (h : s.isProcessing = true) :
      SchedStep s { s with warnings := s.warnings + 1 }
  | rssTickStart (s : SchedState) (h : s.isProcessing = false) :
      SchedStep s { s with isProcessing := true, rssRunning := s.rssRunning + 1 }
  | rssBodyEnd (s : SchedState) (h : 0 < s.rssRunning) :
      SchedStep s { s with isProcessing := false, rssRunning := s.rssRunning - 1 }
  | contentTick (s : SchedState) :
      SchedStep s { s with contentRunning := s.contentRunning + 1 }
  | contentBodyEnd (s : SchedState) (h : 0 < s.contentRunning) :
      SchedStep s { s with contentRunning := s.contentRunning - 1 }

/-- Initial state: no cycle running, flag clear. -/
def initSched : SchedState :=
  { isProcessing := false, rssRunning := 0, contentRunning := 0, warnings := 0 }

/-- States reachable by the event loop. -/
inductive SchedReachable : SchedState → Prop
  | init : SchedReachable initSched
  | step {s s' : SchedState} : SchedReachable s → SchedStep s s' → SchedReachable s'

/-! ## Concrete inputs used by the witnesses and counterexamples -/

/-- A store holding an initial marker for "v" and a stored `upcoming` status. -/
def w1Store : Store :=
  { sentNotifications :=
      [("v", { contentId := "v", docId := "v", streamerName := "", platform := "",
               status := VStatus.upcoming, notificationType := NotifType.initial })],
    videoStatus := [("v", VStatus.upcoming)] }

/-- Store with a stored `upcoming` status for "v" and no sent markers at all. -/
def cx2Store : Store :=
  { sentNotifications := [], videoStatus := [("v", VStatus.upcoming)] }

/-- Store after a first commit of the initial marker for "v". -/
def cx3Store : Store :=
  markAsSent { sentNotifications := [], videoStatus := [] }
    "v" "alice" "youtube" VStatus.video NotifType.initial

/-- A send oracle that raises exactly on the video id "bad". -/
def send4 : String → Except Unit Unit :=
  fun id => if id == "bad" then Except.error () else Except.ok ()

/-- An Evaluate oracle that always says notify-initial (no prior markers). -/
def videos4 : List (String × VStatus) :=
  [("good", VStatus.video), ("bad", VStatus.video), ("after", VStatus.video)]

/-- Date parser for the feed scenarios: three known dates, everything else NaN. -/
def parse5 : String → Option Int :=
  fun s => if s == "d1" then some 1000 else if s == "d2" then some 2000
           else if s == "d3" then some 3000 else none

def item51 : FeedItem := { guid := some "g1", pubDate := some "d1", title := some "t1" }

def item52 : FeedItem := { guid := some "g2", pubDate := some "d2", title := some "t2" }

def item53 : FeedItem := { guid := some "g3", pubDate := some "d3", title := some "t3" }

/-- Empty cursor: nothing to compare against, every item is classified new. -/
def cursor5 : RssCursor := { lastItemId := none, lastPublishDate := none, lastTitle := none }

/-- A channel send that fails exactly on the second item of the batch. -/
def send5 : FeedItem → String → Bool :=
  fun i _ => !(i.guid == some "g2")

/-- Parser for the ordering witness: three known dates. -/
def parse7 : String → Option Int :=
  fun s => if s == "e1" then some 100 else if s == "e2" then some 200
           else if s == "e3" then some 300 else none

def item71 : FeedItem := { guid := some "h1", pubDate := some "e1", title := some "u1" }

def item72 : FeedItem := { guid := some "h2", pubDate := some "e2", title := some "u2" }

def item73 : FeedItem := { guid := some "h3", pubDate := some "e3", title := some "u3" }

def cursor7 : RssCursor := { lastItemId := none, lastPublishDate := none, lastTitle := none }

/-- Parser for the classification witness: "x" parses, everything else NaN. -/
def parse6 : String → Option Int := fun s => if s == "x" then some 5 else none

def item6 : FeedItem := { guid := none, pubDate := some "x", title := none }

def cursor6 : RssCursor := { lastItemId := none, lastPublishDate := some 3, lastTitle := none }

/-- Parser that fails on every string (all dates malformed). -/
def parse10 : String → Option Int := fun _ => none

def item10 : FeedItem := { guid := none, pubDate := some "junk", title := some "t" }

def cursor10 : RssCursor := { lastItemId := none, lastPublishDate := some 7, lastTitle := some "t" }

/-- A reachable scheduler state with two overlapping content-source cycles. -/
def overlapState : SchedState :=
  { isProcessing := false, rssRunning := 0, contentRunning := 2, warnings := 0 }

/-! ## Store lemmas -/

theorem getDoc_setDoc_self (l : List (String × α)) (k : String) (v : α) :
    getDoc (setDoc l k v) k = some v := by
  simp [getDoc, setDoc]

theorem getDoc_filter_ne (l : List (String × α)) (k k' : String) (h : k' ≠ k) :
    getDoc (l.filter (fun p => !(p.1 == k))) k' = getDoc l k' := by
  induction l with
  | nil => rfl
  | cons p rest ih =>
    by_cases hk : p.1 = k
    · have h1 : (!(p.1 == k)) = false := by simp [hk]
      have h2 : k' ≠ p.1 := by rw [hk]; exact h
      simp [List.filter_cons, h1, getDoc, h2, ih]
    · have h1 : (!(p.1 == k)) = true := by simp [hk]
      by_cases hk' : k' = p.1
      · simp [List.filter_cons, h1, getDoc, hk']
      · simp [List.filter_cons, h1, getDoc, hk', ih]

theorem getDoc_setDoc_ne (l : List (String × α)) (k k' : String) (v : α) (h : k' ≠ k) :
    getDoc (setDoc l k v) k' = getDoc l k' := by
  simp [setDoc, getDoc, h, getDoc_filter_ne l k k' h]

theorem countKey_setDoc_self (l : List (String × α)) (k : String) (v : α) :
    countKey (setDoc l k v) k = 1 := by
  have hdrop : ∀ m : List (String × α),
      (m.filter (fun p => !(p.1 == k))).filter (fun p => p.1 == k) = [] := by
    intro m
    induction m with
    | nil => rfl
    | cons p rest ih =>
      by_cases hk : p.1 = k
      · simp [List.filter, hk, ih]
      · have hne : (p.1 == k) = false := by simp [beq_eq_false_iff_ne, hk]
        simp [List.filter, hne, ih]
  simp [countKey, setDoc, List.filter, hdrop]

theorem mem_insertStable (c : α → α → Int) (x a : α) (l : List α) :
    a ∈ insertStable c x l ↔ a = x ∨ a ∈ l := by
  induction l with
  | nil => simp [insertStable]
  | cons y ys ih =>
    by_cases h : c y x ≤ 0
    · simp only [insertStable, if_pos h, List.mem_cons, ih]
      tauto
    · simp [insertStable, if_neg h]

theorem mem_sortByC (c : α → α → Int) (l : List α) (a : α) :
    a ∈ sortByC c l ↔ a ∈ l := by
  have key : ∀ (l acc : List α),
      (a ∈ l.foldl (fun acc x => insertStable c x acc) acc ↔ a ∈ acc ∨ a ∈ l) := by
    intro l
    induction l with
    | nil => intro acc; simp
    | cons x xs ih =>
      intro acc
      simp only [List.foldl_cons, ih, mem_insertStable, List.mem_cons]
      tauto
  simpa using key l []

/-! ## Decision-logic lemmas (finite case analysis over `checkCore`) -/

theorem checkCore_no_marker (prev : Option VStatus) (sce : Bool) (cur : VStatus) :
    (checkCore prev false sce cur).shouldNotify = true ∧
    (checkCore prev false sce cur).notificationType = NotifType.initial := by
  revert prev sce cur; decide

theorem checkCore_after_marker (prev : Option VStatus) (sce : Bool) (cur : VStatus) :
    (checkCore prev true sce cur).shouldNotify = true →
    (checkCore prev true sce cur).notificationType = NotifType.status_change ∧
    prev = some VStatus.upcoming ∧ cur = VStatus.live ∧ sce = false := by
  revert prev sce cur; decide

theorem checkCore_sc_iff (prev : Option VStatus) (ie sce : Bool) (cur : VStatus) :
    ((checkCore prev ie sce cur).shouldNotify = true ∧
     (checkCore prev ie sce cur).notificationType = NotifType.status_change) ↔
    (ie = true ∧ prev = some VStatus.upcoming ∧ cur = VStatus.live ∧ sce = false) := by
  revert prev ie sce cur; decide

/-! ## Claims -/

/-- Claim C1: when no initial sent-marker document exists for an id,
`checkNotificationStatus` decides to notify with type `initial`, regardless of
the current lifecycle state; the handler commit writes the marker under the
plain content id; and once the initial marker exists, every Evaluate returns
`shouldNotify = false` unless the independent status-change condition
(stored prior `upcoming`, current `live`, no status-change marker) holds —
so at most one initial notification decision is ever produced per id. -/
theorem initial_at_most_once (st : Store) (id : String) (cur : VStatus) :
    (getDoc st.sentNotifications id = none →
      (checkNotificationStatus st id cur).shouldNotify = true ∧
      (checkNotificationStatus st id cur).notificationType = NotifType.initial) ∧
    (∀ (n p : String) (s : VStatus),
      (getDoc (handlerMarkAsSent st id n p s NotifType.initial).sentNotifications id).isSome
        = true) ∧
    ((getDoc st.sentNotifications id).isSome = true →
      (checkNotificationStatus st id cur).shouldNotify = true →
      (checkNotificationStatus st id cur).notificationType = NotifType.status_change ∧
      getDoc st.videoStatus id = some VStatus.upcoming ∧
      cur = VStatus.live ∧
      (getDoc st.sentNotifications (scDocId id)).isSome = false) := by
  refine ⟨?_, ?_, ?_⟩
  · intro h
    have hfalse : (getDoc st.sentNotifications id).isSome = false := by simp [h]
    have := checkCore_no_marker (getDoc st.videoStatus id)
      ((getDoc st.sentNotifications (scDocId id)).isSome) cur
    simpa [checkNotificationStatus, hfalse] using this
  · intro n p s
    simp [handlerMarkAsSent, markAsSent, getDoc_setDoc_self]
  · intro hin hnotify
    have h := checkCore_after_marker (getDoc st.videoStatus id)
      ((getDoc st.sentNotifications (scDocId id)).isSome) cur
    rw [checkNotificationStatus] at hnotify ⊢
    rw [hin] at hnotify ⊢
    exact h hnotify

/-- Witness for C1: applies the theorem to the empty store (no marker: notify
initial) and to `w1Store` (marker present, prior upcoming, now live: the only
possible positive decision is status_change). -/
theorem initial_at_most_once_witness :
    ((checkNotificationStatus { sentNotifications := [], videoStatus := [] } "v"
        VStatus.live).shouldNotify = true ∧
     (checkNotificationStatus { sentNotifications := [], videoStatus := [] } "v"
        VStatus.live).notificationType = NotifType.initial) ∧
    (checkNotificationStatus w1Store "v" VStatus.live).notificationType =
      NotifType.status_change :=
  ⟨(initial_at_most_once { sentNotifications := [], videoStatus := [] } "v" VStatus.live).1
      (by decide),
   ((initial_at_most_once w1Store "v" VStatus.live).2.2 (by decide) (by decide)).1⟩

/-- Claim C2 counterexample: in `cx2Store` the stored prior status is exactly
`upcoming`, the current status is `live`, and no status_change marker exists,
yet Evaluate does not return a status_change decision — it returns the
`initial` decision, because the initial marker is also absent.  The claimed
"if and only if" therefore fails in the "if" direction. -/
theorem status_change_gating_counterexample :
    getDoc cx2Store.videoStatus "v" = some VStatus.upcoming ∧
    getDoc cx2Store.sentNotifications (scDocId "v") = none ∧
    ¬((checkNotificationStatus cx2Store "v" VStatus.live).shouldNotify = true ∧
      (checkNotificationStatus cx2Store "v" VStatus.live).notificationType =
        NotifType.status_change) ∧
    (checkNotificationStatus cx2Store "v" VStatus.live).shouldNotify = true ∧
    (checkNotificationStatus cx2Store "v" VStatus.live).notificationType =
      NotifType.initial := by
  decide

/-- Claim C2 (amended): Evaluate returns a status_change decision if and only
if the initial sent-marker exists, the stored prior status is exactly
`upcoming`, the current status is exactly `live`, and no status_change
sent-marker exists yet. -/
theorem status_change_gating_amended (st : Store) (id : String) (cur : VStatus) :
    ((checkNotificationStatus st id cur).shouldNotify = true ∧
     (checkNotificationStatus st id cur).notificationType = NotifType.status_change) ↔
    ((getDoc st.sentNotifications id).isSome = true ∧
     getDoc st.videoStatus id = some VStatus.upcoming ∧
     cur = VStatus.live ∧
     (getDoc st.sentNotifications (scDocId id)).isSome = false) := by
  have h := checkCore_sc_iff (getDoc st.videoStatus id)
    ((getDoc st.sentNotifications id).isSome)
    ((getDoc st.sentNotifications (scDocId id)).isSome) cur
  simpa [checkNotificationStatus] using h

/-- Witness for C2 (amended): on `w1Store` the right-hand side holds, and the
theorem yields the status_change decision. -/
theorem status_change_gating_amended_witness :
    (checkNotificationStatus w1Store "v" VStatus.live).shouldNotify = true ∧
    (checkNotificationStatus w1Store "v" VStatus.live).notificationType =
      NotifType.status_change :=
  (status_change_gating_amended w1Store "v" VStatus.live).mpr
    ⟨by decide, by decide, rfl, by decide⟩

/-- Claim C3 counterexample: `markAsSent` is a plain unconditional
`doc(docId).set(...)`, not a conditional create: with a marker already present
for "v", a second Commit for the same pair succeeds and replaces the stored
marker data, so the write is last-writer-wins rather than create-if-absent. -/
theorem commit_create_if_absent_counterexample :
    (getDoc cx3Store.sentNotifications "v").isSome = true ∧
    markAsSent cx3Store "v" "bob" "twitch" VStatus.live NotifType.initial ≠ cx3Store ∧
    getDoc (markAsSent cx3Store "v" "bob" "twitch" VStatus.live
        NotifType.initial).sentNotifications "v" =
      some { contentId := "v", docId := "v", streamerName := "bob", platform := "twitch",
             status := VStatus.live, notificationType := NotifType.initial } := by
  decide

/-- Claim C3 (amended): `markAsSent` has unconditional overwrite semantics:
after a Commit the store holds exactly one marker document under `docId`,
containing the newly written payload; other keys are untouched; a repeated
Commit for the same (id, kind) pair therefore succeeds and overwrites the
existing marker instead of failing.  At most one document per key exists only
because the store is keyed by doc id, not because of create-if-absent. -/
theorem commit_overwrite_semantics (st : Store) (docId n p : String)
    (s : VStatus) (t : NotifType) :
    getDoc (markAsSent st docId n p s t).sentNotifications docId =
      some { contentId := markerContentId docId, docId := docId, streamerName := n,
             platform := p, status := s, notificationType := t } ∧
    countKey (markAsSent st docId n p s t).sentNotifications docId = 1 ∧
    (∀ k, k ≠ docId →
      getDoc (markAsSent st docId n p s t).sentNotifications k =
        getDoc st.sentNotifications k) := by
  refine ⟨?_, ?_, ?_⟩
  · simpa [markAsSent] using
      getDoc_setDoc_self st.sentNotifications docId
        { contentId := markerContentId docId, docId := docId, streamerName := n,
          platform := p, status := s, notificationType := t }
  · simpa [markAsSent] using
      countKey_setDoc_self st.sentNotifications docId
        { contentId := markerContentId docId, docId := docId, streamerName := n,
          platform := p, status := s, notificationType := t }
  · intro k hk
    simpa [markAsSent] using
      getDoc_setDoc_ne st.sentNotifications docId k
        { contentId := markerContentId docId, docId := docId, streamerName := n,
          platform := p, status := s, notificationType := t } hk

/-- Witness for C3 (amended): second commit on "v" overwrites, and an unrelated
key "w" is untouched. -/
theorem commit_overwrite_semantics_witness :
    getDoc (markAsSent cx3Store "v" "bob" "twitch" VStatus.live
        NotifType.initial).sentNotifications "w" =
      getDoc cx3Store.sentNotifications "w" :=
  (commit_overwrite_semantics cx3Store "v" "bob" "twitch" VStatus.live
      NotifType.initial).2.2 "w" (by decide)

/-- Claim C8: a store read failure during Evaluate is caught and the
conservative default object is returned: `shouldNotify = false` (the item is
skipped for this cycle), so no initial or status_change notification can be
produced in that cycle from a failed read. -/
theorem read_failure_fail_closed (statusRead : Except Unit (Option VStatus))
    (initialRead scRead : Except Unit Bool) (cur : VStatus) :
    (statusRead = Except.error () ∨ initialRead = Except.error () ∨
      scRead = Except.error ()) →
    checkNotificationStatusE statusRead initialRead scRead cur = errorResult ∧
    (checkNotificationStatusE statusRead initialRead scRead cur).shouldNotify = false := by
  intro h
  cases statusRead with
  | error e => exact ⟨rfl, rfl⟩
  | ok prev =>
    cases initialRead with
    | error e => exact ⟨rfl, rfl⟩
    | ok ie =>
      cases scRead with
      | error e => exact ⟨rfl, rfl⟩
      | ok sce => simp at h

/-- Helper for C4: a marker write for `id` appears in a cycle's event list only
when the send for `id` returned without raising, and the successful delivery
event is in the list too. -/
theorem marked_implies_ok_send (send : String → Except Unit Unit)
    (videos : List (String × VStatus)) :
    ∀ (st : Store) (id : String) (t : NotifType),
      Event.marked id t ∈ (checkStreamerContent send st videos).2 →
      send id = Except.ok () ∧ Event.sent id t ∈ (checkStreamerContent send st videos).2 := by
  induction videos with
  | nil =>
    intro st id t h
    simp [checkStreamerContent] at h
  | cons v rest ih =>
    intro st id t h
    obtain ⟨vid, vcur⟩ := v
    rw [checkStreamerContent] at h ⊢
    by_cases hn : (shouldNotifyH st vid vcur).1.shouldNotify = true
    · rw [if_pos hn] at h ⊢
      cases hsend : send vid with
      | ok u =>
        rw [hsend] at h
        simp only [List.mem_cons] at h
        rcases h with h | h | h
        · exact absurd h (by simp)
        · obtain ⟨hid, ht⟩ : id = vid ∧ t = (shouldNotifyH st vid vcur).1.notificationType := by
            injection h with h1 h2; exact ⟨h1, h2⟩
          subst hid; subst ht
          refine ⟨by cases u; exact hsend, ?_⟩
          simp
        · have hrec := ih _ id t h
          refine ⟨hrec.1, ?_⟩
          simp only [List.mem_cons]
          exact Or.inr (Or.inr hrec.2)
      | error u =>
        rw [hsend] at h
        simp at h
    · rw [if_neg hn] at h ⊢
      exact ih _ id t h

/-- Claim C4: in the per-streamer cycle, a sent-marker write for an item occurs
only after the send for that item returned without raising; if the send raises,
`markAsSent` is not executed for that item in this cycle (the item stays
eligible on the next cycle because its marker is still absent). -/
theorem marker_only_after_send (send : String → Except Unit Unit) (st : Store)
    (videos : List (String × VStatus)) (id : String) (t : NotifType) :
    (Event.marked id t ∈ (checkStreamerContent send st videos).2 →
      send id = Except.ok () ∧
      Event.sent id t ∈ (checkStreamerContent send st videos).2) ∧
    (send id = Except.error () →
      Event.marked id t ∉ (checkStreamerContent send st videos).2) := by
  refine ⟨fun h => marked_implies_ok_send send videos st id t h, fun herr hmem => ?_⟩
  have h := (marked_implies_ok_send send videos st id t hmem).1
  rw [herr] at h
  exact absurd h (by simp)

/-- Witness for C4: with a send oracle that raises exactly on "bad", the cycle
over three due videos never writes the marker for "bad". -/
theorem marker_only_after_send_witness :
    Event.marked "bad" NotifType.initial ∉
      (checkStreamerContent send4 { sentNotifications := [], videoStatus := [] }
        videos4).2 :=
  (marker_only_after_send send4 { sentNotifications := [], videoStatus := [] }
      videos4 "bad" NotifType.initial).2 rfl

/-- Claim C5 counterexample: a batch of three new items where the channel send
fails on the second item still advances the persisted cursor to the third
(chronologically newest) item — the failure is caught inside the channel loop
and the cursor update does not depend on dispatch outcomes.  The cursor does
move past the first item's identity/date/title, contradicting the claim. -/
theorem cursor_not_advanced_counterexample :
    (item52, "ch", false) ∈
      (processFeed parse5 send5 ["ch"] cursor5 [item51, item52, item53]).attempts ∧
    (processFeed parse5 send5 ["ch"] cursor5 [item51, item52, item53]).cursorAfter =
      some (cursorFromItem parse5 item53) ∧
    cursorFromItem parse5 item53 ≠ cursorFromItem parse5 item51 ∧
    cursorFromItem parse5 item53 =
      { lastItemId := some "g3", lastPublishDate := some 3000, lastTitle := some "t3" } := by
  decide

/-- Claim C5 (amended): the cursor written by `processRssFeeds` is independent
of dispatch outcomes — per-channel send failures are caught and only logged —
and whenever the sorted new-item list is nonempty the cursor is set exactly to
its last element (the chronologically newest item), never to an intermediate
item; with no new items the cursor is not written. -/
theorem cursor_advance_amended (parse : String → Option Int)
    (send send' : FeedItem → String → Bool) (channels channels' : List String)
    (c : RssCursor) (items : List FeedItem) :
    (processFeed parse send channels c items).cursorAfter =
      (processFeed parse send' channels' c items).cursorAfter ∧
    (∀ lastItem, (dispatchOrder parse c items).getLast? = some lastItem →
      (processFeed parse send channels c items).cursorAfter =
        some (cursorFromItem parse lastItem)) ∧
    ((dispatchOrder parse c items).getLast? = none →
      (processFeed parse send channels c items).cursorAfter = none) := by
  refine ⟨rfl, ?_, ?_⟩
  · intro lastItem h
    simp [processFeed, h]
  · intro h
    simp [processFeed, h]

/-- Witness for C5 (amended): on the three-item batch with the failing send,
the cursor is the one of the last sorted item. -/
theorem cursor_advance_amended_witness :
    (processFeed parse5 send5 ["ch"] cursor5 [item51, item52, item53]).cursorAfter =
      some (cursorFromItem parse5 item53) :=
  (cursor_advance_amended parse5 send5 send5 ["ch"] ["ch"] cursor5
      [item51, item52, item53]).2.1 item53 (by decide)

/-- Witness for C8: a failing video-status read with otherwise healthy reads
yields the fail-closed default. -/
theorem read_failure_fail_closed_witness :
    checkNotificationStatusE (Except.error ()) (Except.ok true) (Except.ok false)
        VStatus.live = errorResult ∧
    (checkNotificationStatusE (Except.error ()) (Except.ok true) (Except.ok false)
        VStatus.live).shouldNotify = false :=
  read_failure_fail_closed (Except.error ()) (Except.ok true) (Except.ok false)
    VStatus.live (Or.inl rfl)

/-! ## safeCompareDate helper lemmas -/

theorem scd_missing (parse : String → Option Int) (d : Option JsDate) :
    safeCompareDate parse none d = false ∧ safeCompareDate parse d none = false := by
  cases d <;> exact ⟨rfl, rfl⟩

theorem scd_other (parse : String → Option Int) (d : Option JsDate) :
    safeCompareDate parse (some JsDate.other) d = false ∧
    safeCompareDate parse d (some JsDate.other) = false := by
  cases d with
  | none => exact ⟨rfl, rfl⟩
  | some v =>
    constructor
    · cases v with
      | str s =>
        by_cases hs : (s == "") = true
        · simp [safeCompareDate, jsFalsy, hs]
        · cases hp : parse s <;> simp [safeCompareDate, jsFalsy, toJsTime, hs, hp]
      | date t => cases t <;> simp [safeCompareDate, jsFalsy, toJsTime]
      | seconds n => simp [safeCompareDate, jsFalsy, toJsTime]
      | other => simp [safeCompareDate, jsFalsy, toJsTime]
    · cases v with
      | str s =>
        by_cases hs : (s == "") = true
        · simp [safeCompareDate, jsFalsy, hs]
        · cases hp : parse s <;> simp [safeCompareDate, jsFalsy, toJsTime, hs, hp]
      | date t => cases t <;> simp [safeCompareDate, jsFalsy, toJsTime]
      | seconds n => simp [safeCompareDate, jsFalsy, toJsTime]
      | other => simp [safeCompareDate, jsFalsy, toJsTime]

theorem scd_badstr (parse : String → Option Int) (s : String) (d : Option JsDate)
    (h : parse s = none) :
    safeCompareDate parse (some (JsDate.str s)) d = false := by
  cases d with
  | none => rfl
  | some v =>
    by_cases hf : (jsFalsy (JsDate.str s) || jsFalsy v) = true
    · simp [safeCompareDate, hf]
    · simp [safeCompareDate, hf, toJsTime, h]

theorem scd_invalid_date (parse : String → Option Int) (d : Option JsDate) :
    safeCompareDate parse d (some (JsDate.date none)) = false := by
  cases d with
  | none => rfl
  | some v =>
    by_cases hf : (jsFalsy v || jsFalsy (JsDate.date none)) = true
    · simp [safeCompareDate, hf]
    · cases h1 : toJsTime parse v <;>
        simp [safeCompareDate, hf, toJsTime, h1]

/-- In the date branch (guid unavailable, pubDate and stored date present),
a pubDate string that fails to parse makes the item not-new. -/
theorem isNew_malformed_date (parse : String → Option Int) (item : FeedItem)
    (c : RssCursor) (s : String) (t : Int)
    (hg : (truthyStr item.guid && truthyStr c.lastItemId) = false)
    (hp : item.pubDate = some s) (hs : s ≠ "") (hparse : parse s = none)
    (ht : c.lastPublishDate = some t) :
    isNewItem parse item c = false := by
  have hps : truthyStr item.pubDate = true := by simp [hp, truthyStr, hs]
  have hcond : (truthyStr item.pubDate && c.lastPublishDate.isSome) = true := by
    simp [hps, ht]
  rw [isNewItem, if_neg (by simp [hg]), if_pos (by simp [hcond]), hp, ht]
  simpa using scd_badstr parse s (some (JsDate.date (some t))) hparse

/-! ## Remaining claims -/

/-- Claim C6: the new-item classification applies exactly the priority order
guid-equality, then strictly-newer publish date (via `safeCompareDate` on the
parsed times), then title inequality, and fails open (new) when no comparison
field is available on both sides. -/
theorem feed_classification_priority (parse : String → Option Int)
    (item : FeedItem) (c : RssCursor) :
    ((truthyStr item.guid && truthyStr c.lastItemId) = true →
      (isNewItem parse item c = true ↔ item.guid ≠ c.lastItemId)) ∧
    ((truthyStr item.guid && truthyStr c.lastItemId) = false →
      ∀ s t, item.pubDate = some s → s ≠ "" → c.lastPublishDate = some t →
        (isNewItem parse item c = true ↔ ∃ tp, parse s = some tp ∧ t < tp)) ∧
    ((truthyStr item.guid && truthyStr c.lastItemId) = false →
      (truthyStr item.pubDate && c.lastPublishDate.isSome) = false →
      (truthyStr item.title && truthyStr c.lastTitle) = true →
        (isNewItem parse item c = true ↔ item.title ≠ c.lastTitle)) ∧
    ((truthyStr item.guid && truthyStr c.lastItemId) = false →
      (truthyStr item.pubDate && c.lastPublishDate.isSome) = false →
      (truthyStr item.title && truthyStr c.lastTitle) = false →
        isNewItem parse item c = true) := by
  refine ⟨?_, ?_, ?_, ?_⟩
  · intro hg
    simp [isNewItem, hg, bne_iff_ne]
  · intro hg s t hp hs ht
    have hsb : (s == "") = false := by simp [hs]
    have hps : truthyStr item.pubDate = true := by simp [hp, truthyStr, hs]
    rw [isNewItem, if_neg (by simp [hg]), if_pos (by simp [hps, ht]), hp, ht]
    cases hparse : parse s with
    | none =>
      simp [safeCompareDate, jsFalsy, toJsTime, hsb, hparse]
    | some tp =>
      simp [safeCompareDate, jsFalsy, toJsTime, hsb, hparse]
  · intro hg hd htl
    simp [isNewItem, hg, hd, htl, bne_iff_ne]
  · intro hg hd htl
    simp [isNewItem, hg, hd, htl]

/-- Witness for C6: the date branch fires on `item6` against `cursor6`
("x" parses to 5, newer than the stored 3: classified new). -/
theorem feed_classification_priority_witness :
    isNewItem parse6 item6 cursor6 = true :=
  ((feed_classification_priority parse6 item6 cursor6).2.1 (by decide) "x" 3 rfl
      (by decide) rfl).mpr ⟨5, rfl, by decide⟩

/-- Claim C7: new items are dispatched ascending by parsed publish date
(`[D3, D1, D2]` with `D1 < D2 < D3` is presented as `[D1, D2, D3]`); an item
with no pubDate gets sort key 0 and sorts before any item with a positive
parsed date; comparator ties (including unparseable dates, which compare 0
against everything) keep the original stable order. -/
theorem dispatch_order_ascending :
    (∀ (parse : String → Option Int) (x y z : FeedItem) (c : RssCursor) (D1 D2 D3 : Int),
      itemKey parse x = some D1 → itemKey parse y = some D2 → itemKey parse z = some D3 →
      D1 < D2 → D2 < D3 →
      isNewItem parse x c = true → isNewItem parse y c = true → isNewItem parse z c = true →
      dispatchOrder parse c [z, x, y] = [x, y, z]) ∧
    (∀ (parse : String → Option Int) (m x : FeedItem) (c : RssCursor) (D : Int),
      m.pubDate = none → itemKey parse x = some D → 0 < D →
      isNewItem parse m c = true → isNewItem parse x c = true →
      dispatchOrder parse c [x, m] = [m, x]) ∧
    (∀ (parse : String → Option Int) (a b : FeedItem) (c : RssCursor),
      rssComparator parse a b = 0 →
      isNewItem parse a c = true → isNewItem parse b c = true →
      dispatchOrder parse c [a, b] = [a, b]) := by
  refine ⟨?_, ?_, ?_⟩
  · intro parse x y z c D1 D2 D3 hx hy hz h12 h23 nx ny nz
    have czx : ¬ (rssComparator parse z x ≤ 0) := by
      simp only [rssComparator, hx, hz]
      omega
    have cxy : rssComparator parse x y ≤ 0 := by
      simp only [rssComparator, hx, hy]
      omega
    have czy : ¬ (rssComparator parse z y ≤ 0) := by
      simp only [rssComparator, hy, hz]
      omega
    simp [dispatchOrder, sortItems, sortByC, List.filter_cons, nx, ny, nz,
      insertStable, czx, cxy, czy]
  · intro parse m x c D hm hx hD nm nx
    have hkm : itemKey parse m = some 0 := by simp [itemKey, hm]
    have cxm : ¬ (rssComparator parse x m ≤ 0) := by
      simp only [rssComparator, hkm, hx]
      omega
    simp [dispatchOrder, sortItems, sortByC, List.filter_cons, nm, nx,
      insertStable, cxm]
  · intro parse a b c hab na nb
    have cab : rssComparator parse a b ≤ 0 := by rw [hab]
    simp [dispatchOrder, sortItems, sortByC, List.filter_cons, na, nb,
      insertStable, cab]

/-- Witness for C7: fetched in order `[e3, e1, e2]`, dispatched `[e1, e2, e3]`. -/
theorem dispatch_order_ascending_witness :
    dispatchOrder parse7 cursor7 [item73, item71, item72] = [item71, item72, item73] :=
  dispatch_order_ascending.1 parse7 item71 item72 item73 cursor7 100 200 300
    rfl rfl rfl (by decide) (by decide) (by decide) (by decide) (by decide)

/-- Helper for C9: invariant of the scheduler transition system — whenever the
`isProcessing` flag is clear, no RSS cycle body is in flight, and at most one
RSS cycle body is ever in flight. -/
theorem sched_inv (s : SchedState) (h : SchedReachable s) :
    (s.isProcessing = false → s.rssRunning = 0) ∧ s.rssRunning ≤ 1 := by
  induction h with
  | init => exact ⟨fun _ => rfl, by simp [initSched]⟩
  | step hr hstep ih =>
    rename_i s1 s2
    cases hstep with
    | rssTickSkip h => exact ih
    | rssTickStart h =>
      have h0 : s1.rssRunning = 0 := ih.1 h
      refine ⟨fun hfalse => ?_, ?_⟩
      · simp at hfalse
      · show s1.rssRunning + 1 ≤ 1
        omega
    | rssBodyEnd h =>
      have h2 := ih.2
      refine ⟨fun _ => ?_, ?_⟩
      · show s1.rssRunning - 1 = 0
        omega
      · show s1.rssRunning - 1 ≤ 1
        omega
    | contentTick => exact ih
    | contentBodyEnd h => exact ih

/-- Claim C9 counterexample: the content-source cycle (`checkForNewContent`)
has no processing flag, so the scheduler can start a second content cycle
while the first is still running: a state with two in-flight content cycle
bodies is reachable, refuting "for every source category, a new poll cycle
never starts while the previous cycle for that category is still Running". -/
theorem content_cycle_overlap_counterexample :
    SchedReachable overlapState ∧ ¬ (overlapState.contentRunning ≤ 1) := by
  constructor
  · have h1 : SchedStep initSched
        { isProcessing := false, rssRunning := 0, contentRunning := 1, warnings := 0 } :=
      SchedStep.contentTick initSched
    have h2 : SchedStep
        { isProcessing := false, rssRunning := 0, contentRunning := 1, warnings := 0 }
        overlapState :=
      SchedStep.contentTick
        { isProcessing := false, rssRunning := 0, contentRunning := 1, warnings := 0 }
    exact SchedReachable.step (SchedReachable.step SchedReachable.init h1) h2
  · decide

/-- Claim C9 (amended): only the RSS feed category is guarded: in every
reachable state at most one RSS cycle body is in flight (the `isProcessing`
flag is set before the body and reset in `finally`, even on error), a
reentrant trigger while the flag is set cannot start a new RSS body, and the
reentrant trigger no-ops with only a logged warning.  The content-source
category (`checkForNewContent`) has no such guard and its cycles can overlap. -/
theorem rss_cycle_no_overlap :
    (∀ s : SchedState, SchedReachable s → s.rssRunning ≤ 1) ∧
    (∀ s s' : SchedState, s.isProcessing = true → SchedStep s s' →
      s'.rssRunning ≤ s.rssRunning) ∧
    (∀ s : SchedState, s.isProcessing = true →
      SchedStep s { s with warnings := s.warnings + 1 }) := by
  refine ⟨fun s h => (sched_inv s h).2, ?_, fun s h => SchedStep.rssTickSkip s h⟩
  intro s s' hp hstep
  cases hstep with
  | rssTickSkip h => exact Nat.le_refl _
  | rssTickStart h => rw [h] at hp; exact absurd hp (by simp)
  | rssBodyEnd h =>
    show s.rssRunning - 1 ≤ s.rssRunning
    omega
  | contentTick => exact Nat.le_refl _
  | contentBodyEnd h => exact Nat.le_refl _

/-- Witness for C9 (amended): the invariant at the initial state, and the
warning-only skip step from a state whose flag is set. -/
theorem rss_cycle_no_overlap_witness :
    initSched.rssRunning ≤ 1 ∧
    SchedStep { isProcessing := true, rssRunning := 1, contentRunning := 0, warnings := 0 }
      { isProcessing := true, rssRunning := 1, contentRunning := 0, warnings := 1 } :=
  ⟨rss_cycle_no_overlap.1 initSched SchedReachable.init,
   rss_cycle_no_overlap.2.2
     { isProcessing := true, rssRunning := 1, contentRunning := 0, warnings := 0 } rfl⟩

/-- Claim C10: `safeCompareDate` returns false whenever either argument is
missing, of an unrecognized type, or parses to an invalid date; consequently a
feed item whose pubDate is present but unparseable, compared against a stored
lastPublishDate, is classified not-new and never appears in the dispatch list —
the fail-open rule applies only when a comparison field is absent. -/
theorem compare_malformed_not_new :
    (∀ (parse : String → Option Int) (d : Option JsDate),
      safeCompareDate parse none d = false ∧ safeCompareDate parse d none = false) ∧
    (∀ (parse : String → Option Int) (d : Option JsDate),
      safeCompareDate parse (some JsDate.other) d = false ∧
      safeCompareDate parse d (some JsDate.other) = false) ∧
    (∀ (parse : String → Option Int) (s : String) (d : Option JsDate),
      parse s = none → safeCompareDate parse (some (JsDate.str s)) d = false) ∧
    (∀ (parse : String → Option Int) (d : Option JsDate),
      safeCompareDate parse d (some (JsDate.date none)) = false) ∧
    (∀ (parse : String → Option Int) (item : FeedItem) (c : RssCursor)
        (s : String) (t : Int),
      (truthyStr item.guid && truthyStr c.lastItemId) = false →
      item.pubDate = some s → s ≠ "" → parse s = none → c.lastPublishDate = some t →
      isNewItem parse item c = false ∧
      ∀ items : List FeedItem, item ∉ dispatchOrder parse c items) := by
  refine ⟨scd_missing, scd_other, scd_badstr, scd_invalid_date, ?_⟩
  intro parse item c s t hg hp hs hparse ht
  have hnew := isNew_malformed_date parse item c s t hg hp hs hparse ht
  refine ⟨hnew, ?_⟩
  intro items hmem
  have h1 : item ∈ items.filter (fun i => isNewItem parse i c) :=
    (mem_sortByC (rssComparator parse) _ item).mp hmem
  have h2 := (List.mem_filter.mp h1).2
  rw [hnew] at h2
  exact absurd h2 (by simp)

/-- Witness for C10: with a parser that rejects everything, junk-dated `item10`
compared against `cursor10` is not new and is excluded from dispatch. -/
theorem compare_malformed_not_new_witness :
    safeCompareDate parse10 (some (JsDate.str "junk")) (some (JsDate.date (some 7)))
        = false ∧
    isNewItem parse10 item10 cursor10 = false ∧
    item10 ∉ dispatchOrder parse10 cursor10 [item10] :=
  ⟨compare_malformed_not_new.2.2.1 parse10 "junk" (some (JsDate.date (some 7))) rfl,
   (compare_malformed_not_new.2.2.2.2 parse10 item10 cursor10 "junk" 7 (by decide)
       rfl (by decide) rfl rfl).1,
   (compare_malformed_not_new.2.2.2.2 parse10 item10 cursor10 "junk" 7 (by decide)
       rfl (by decide) rfl rfl).2 [item10]⟩

end Shikeo
